import Mathlib

/-!
Shallow embedding of `src/app/models.py` (marriage-letter-generator).

The repository is a single SQLModel module defining four persistent table
models (`Person`, `MarriagePreferences`, `FamilyBackground`, `MarriageLetter`),
four string enums, and non-persistent create/response/summary/print-request
schemas.  We embed it at two levels:

1. a schema metamodel: every model is a list of `FieldSpec` descriptors
   recording the declared name, type annotation, optionality, default,
   `max_length`, `primary_key`, `foreign_key`, `unique` and `sa_column=JSON`
   attributes, transcribed field by field from the source;
2. record-level Lean structures with the same default values, for claims
   about concretely constructed values.

`Relationship(...)` attributes of the Python classes are ORM navigation
properties, not columns; the descriptor lists contain only column fields,
exactly as the generated tables do.
-/

/-- Python `datetime.date`, modelled abstractly (claims never inspect it). -/
abbrev PyDate := Nat

/-- Python `datetime.datetime`, modelled abstractly. -/
abbrev PyDateTime := Nat

/-- Python `Decimal`, modelled abstractly. -/
abbrev PyDecimal := Int

/-- Python `Any` values stored in JSON custom fields. -/
inductive PyVal where
  | strV (s : String)
  | intV (n : Int)
  | boolV (b : Bool)
  | nullV
  deriving Repr, DecidableEq

/-- `class MaritalStatus(str, Enum)` from models.py. -/
inductive MaritalStatus where
  | SINGLE
  | DIVORCED
  | WIDOWED
  deriving Repr, DecidableEq

/-- String value of each `MaritalStatus` member. -/
def MaritalStatus.value : MaritalStatus → String
  | .SINGLE => "single"
  | .DIVORCED => "divorced"
  | .WIDOWED => "widowed"

/-- `class EducationLevel(str, Enum)` from models.py. -/
inductive EducationLevel where
  | PRIMARY
  | SECONDARY
  | DIPLOMA
  | BACHELOR
  | MASTER
  | DOCTORATE
  | PROFESSIONAL
  deriving Repr, DecidableEq

/-- `class Religion(str, Enum)` from models.py. -/
inductive Religion where
  | ISLAM
  | CHRISTIANITY
  | HINDUISM
  | BUDDHISM
  | JUDAISM
  | OTHER
  deriving Repr, DecidableEq

/-- String value of each `Religion` member. -/
def Religion.value : Religion → String
  | .ISLAM => "islam"
  | .CHRISTIANITY => "christianity"
  | .HINDUISM => "hinduism"
  | .BUDDHISM => "buddhism"
  | .JUDAISM => "judaism"
  | .OTHER => "other"

/-- Coercion of a raw string into a `Religion` member, as pydantic validation
of a `str` enum performs it: the string must equal one of the member values. -/
def Religion.ofString? (s : String) : Option Religion :=
  if s = "islam" then some .ISLAM
  else if s = "christianity" then some .CHRISTIANITY
  else if s = "hinduism" then some .HINDUISM
  else if s = "buddhism" then some .BUDDHISM
  else if s = "judaism" then some .JUDAISM
  else if s = "other" then some .OTHER
  else none

/-- `class LetterType(str, Enum)` from models.py. -/
inductive LetterType where
  | N1
  | N2
  | N3
  | N4
  | N5
  deriving Repr, DecidableEq

/-- String value of each `LetterType` member. -/
def LetterType.value : LetterType → String
  | .N1 => "N1"
  | .N2 => "N2"
  | .N3 => "N3"
  | .N4 => "N4"
  | .N5 => "N5"

/-- Coercion of a raw string into a `LetterType` member, as pydantic
validation of a `str` enum performs it. -/
def LetterType.ofString? (s : String) : Option LetterType :=
  if s = "N1" then some .N1
  else if s = "N2" then some .N2
  else if s = "N3" then some .N3
  else if s = "N4" then some .N4
  else if s = "N5" then some .N5
  else none

/-- The (inner) type annotation of a model field.  `Optional[...]` wrapping is
recorded separately in `FieldSpec.optional`. -/
inductive FieldType where
  | str
  | intT
  | boolT
  | dateT
  | datetimeT
  | decimalT (places : Nat)
  | enumT (enumName : String)
  | listStr
  | dictT
  | submodel (modelName : String)
  deriving Repr, DecidableEq

/-- A declared `default=` (or `default_factory=`) value of a field. -/
inductive DefaultVal where
  | dNone
  | dStr (s : String)
  | dNat (n : Nat)
  | dBool (b : Bool)
  | dEmptyList
  | dEmptyDict
  | dEnum (v : String)
  | dFactoryNow
  deriving Repr, DecidableEq

/-- One declared field of a SQLModel class: its name, annotation, and the
attributes passed to `Field(...)`.  A field with `dflt = none` has no default,
hence must be supplied (it is "present" in the claims' sense). -/
structure FieldSpec where
  name : String
  ftype : FieldType
  optional : Bool := false
  dflt : Option DefaultVal := none
  maxLength : Option Nat := none
  primaryKey : Bool := false
  foreignKey : Option String := none
  unique : Bool := false
  saColumnJson : Bool := false
  deriving Repr, DecidableEq

/-- Abbreviation: a required string field with a `max_length`. -/
def strF (n : String) (len : Nat) : FieldSpec :=
  { name := n, ftype := .str, maxLength := some len }

/-- Abbreviation: a string field with `default=""` and a `max_length`. -/
def strD (n : String) (len : Nat) : FieldSpec :=
  { name := n, ftype := .str, dflt := some (.dStr ""), maxLength := some len }

/-- Abbreviation: an `Optional[int]` field with `default=None`. -/
def optIntF (n : String) : FieldSpec :=
  { name := n, ftype := .intT, optional := true, dflt := some .dNone }

/-- Abbreviation: the `id: Optional[int] = Field(default=None, primary_key=True)`
field shared by all four table models. -/
def idField : FieldSpec :=
  { name := "id", ftype := .intT, optional := true, dflt := some .dNone,
    primaryKey := true }

/-- Abbreviation: a `created_at: datetime = Field(default_factory=datetime.utcnow)`
field. -/
def createdAtField : FieldSpec :=
  { name := "created_at", ftype := .datetimeT, dflt := some .dFactoryNow }

/-- Abbreviation: an `Optional[int]` foreign-key field with `default=None`. -/
def optFkF (n : String) (target : String) : FieldSpec :=
  { name := n, ftype := .intT, optional := true, dflt := some .dNone,
    foreignKey := some target }

/-- Column fields of `class Person(SQLModel, table=True)` (`persons` table),
transcribed in declaration order from models.py lines 47-68. -/
def persons_fields : List FieldSpec :=
  [ idField,
    strF "full_name" 255,
    { name := "date_of_birth", ftype := .dateT },
    strF "place_of_birth" 255,
    strF "nationality" 100,
    { name := "religion", ftype := .enumT "Religion" },
    strF "occupation" 255,
    { name := "education_level", ftype := .enumT "EducationLevel" },
    strD "institution_name" 255,
    optIntF "graduation_year",
    { name := "monthly_income", ftype := .decimalT 2, optional := true,
      dflt := some .dNone },
    strF "address" 500,
    strF "phone_number" 20,
    strD "email" 255,
    optIntF "height_cm",
    { name := "weight_kg", ftype := .decimalT 1, optional := true,
      dflt := some .dNone },
    strD "complexion" 100,
    strD "physical_disabilities" 500,
    strD "health_conditions" 500,
    strD "hobbies" 500,
    strD "additional_notes" 1000,
    createdAtField ]

/-- Column fields of `class MarriagePreferences(SQLModel, table=True)`
(`marriage_preferences` table), models.py lines 96-109. -/
def marriage_preferences_fields : List FieldSpec :=
  [ idField,
    optIntF "preferred_age_min",
    optIntF "preferred_age_max",
    { name := "preferred_education", ftype := .enumT "EducationLevel",
      optional := true, dflt := some .dNone },
    strD "preferred_occupation" 255,
    { name := "preferred_religion", ftype := .enumT "Religion",
      optional := true, dflt := some .dNone },
    strD "preferred_nationality" 100,
    strD "preferred_location" 255,
    { name := "preferred_income_min", ftype := .decimalT 2, optional := true,
      dflt := some .dNone },
    optIntF "preferred_height_min",
    optIntF "preferred_height_max",
    { name := "marital_status_acceptable", ftype := .listStr,
      dflt := some .dEmptyList, saColumnJson := true },
    strD "additional_requirements" 1000,
    createdAtField ]

/-- Column fields of `class FamilyBackground(SQLModel, table=True)`
(`family_backgrounds` table), models.py lines 127-138. -/
def family_backgrounds_fields : List FieldSpec :=
  [ idField,
    strF "family_origin" 255,
    strF "ancestral_home" 255,
    strD "family_traditions" 1000,
    strD "social_status" 255,
    strD "family_values" 1000,
    { name := "number_of_siblings", ftype := .intT, dflt := some (.dNat 0) },
    strD "siblings_details" 1000,
    strD "family_income_range" 100,
    strD "property_details" 500,
    strD "family_reputation" 500,
    createdAtField ]

/-- Column fields of `class MarriageLetter(SQLModel, table=True)`
(`marriage_letters` table), models.py lines 154-188. -/
def marriage_letters_fields : List FieldSpec :=
  [ idField,
    { name := "letter_type", ftype := .enumT "LetterType" },
    { name := "reference_number", ftype := .str, maxLength := some 50,
      unique := true },
    { name := "husband_id", ftype := .intT, foreignKey := some "persons" },
    optFkF "husband_father_id" "persons",
    optFkF "husband_mother_id" "persons",
    { name := "husband_marital_status", ftype := .enumT "MaritalStatus",
      dflt := some (.dEnum "single") },
    optFkF "husband_family_id" "family_backgrounds",
    optFkF "husband_preferences_id" "marriage_preferences",
    { name := "wife_id", ftype := .intT, foreignKey := some "persons" },
    optFkF "wife_father_id" "persons",
    optFkF "wife_mother_id" "persons",
    { name := "wife_marital_status", ftype := .enumT "MaritalStatus",
      dflt := some (.dEnum "single") },
    optFkF "wife_family_id" "family_backgrounds",
    optFkF "wife_preferences_id" "marriage_preferences",
    strF "purpose" 500,
    strD "special_requests" 1000,
    strF "contact_person" 255,
    strF "contact_phone" 20,
    strD "contact_email" 255,
    { name := "is_printed", ftype := .boolT, dflt := some (.dBool false) },
    { name := "print_date", ftype := .datetimeT, optional := true,
      dflt := some .dNone },
    createdAtField,
    { name := "updated_at", ftype := .datetimeT, dflt := some .dFactoryNow },
    { name := "custom_fields", ftype := .dictT, dflt := some .dEmptyDict,
      saColumnJson := true } ]

/-- Fields of `class PersonCreate(SQLModel, table=False)`,
models.py lines 233-252. -/
def person_create_fields : List FieldSpec :=
  [ strF "full_name" 255,
    { name := "date_of_birth", ftype := .dateT },
    strF "place_of_birth" 255,
    strF "nationality" 100,
    { name := "religion", ftype := .enumT "Religion" },
    strF "occupation" 255,
    { name := "education_level", ftype := .enumT "EducationLevel" },
    strD "institution_name" 255,
    optIntF "graduation_year",
    { name := "monthly_income", ftype := .decimalT 2, optional := true,
      dflt := some .dNone },
    strF "address" 500,
    strF "phone_number" 20,
    strD "email" 255,
    optIntF "height_cm",
    { name := "weight_kg", ftype := .decimalT 1, optional := true,
      dflt := some .dNone },
    strD "complexion" 100,
    strD "physical_disabilities" 500,
    strD "health_conditions" 500,
    strD "hobbies" 500,
    strD "additional_notes" 1000 ]

/-- Fields of `class MarriagePreferencesCreate(SQLModel, table=False)`,
models.py lines 258-269.  `marital_status_acceptable` here has a plain
`default=[]` (no `sa_column=Column(JSON)`). -/
def marriage_preferences_create_fields : List FieldSpec :=
  [ optIntF "preferred_age_min",
    optIntF "preferred_age_max",
    { name := "preferred_education", ftype := .enumT "EducationLevel",
      optional := true, dflt := some .dNone },
    strD "preferred_occupation" 255,
    { name := "preferred_religion", ftype := .enumT "Religion",
      optional := true, dflt := some .dNone },
    strD "preferred_nationality" 100,
    strD "preferred_location" 255,
    { name := "preferred_income_min", ftype := .decimalT 2, optional := true,
      dflt := some .dNone },
    optIntF "preferred_height_min",
    optIntF "preferred_height_max",
    { name := "marital_status_acceptable", ftype := .listStr,
      dflt := some .dEmptyList },
    strD "additional_requirements" 1000 ]

/-- Fields of `class FamilyBackgroundCreate(SQLModel, table=False)`,
models.py lines 275-284. -/
def family_background_create_fields : List FieldSpec :=
  [ strF "family_origin" 255,
    strF "ancestral_home" 255,
    strD "family_traditions" 1000,
    strD "social_status" 255,
    strD "family_values" 1000,
    { name := "number_of_siblings", ftype := .intT, dflt := some (.dNat 0) },
    strD "siblings_details" 1000,
    strD "family_income_range" 100,
    strD "property_details" 500,
    strD "family_reputation" 500 ]

/-- Fields of `class MarriageLetterCreate(SQLModel, table=False)`,
models.py lines 290-316. -/
def marriage_letter_create_fields : List FieldSpec :=
  [ { name := "letter_type", ftype := .enumT "LetterType" },
    { name := "husband_data", ftype := .submodel "PersonCreate" },
    { name := "husband_father_data", ftype := .submodel "PersonCreate",
      optional := true, dflt := some .dNone },
    { name := "husband_mother_data", ftype := .submodel "PersonCreate",
      optional := true, dflt := some .dNone },
    { name := "husband_marital_status", ftype := .enumT "MaritalStatus",
      dflt := some (.dEnum "single") },
    { name := "husband_family_data", ftype := .submodel "FamilyBackgroundCreate",
      optional := true, dflt := some .dNone },
    { name := "husband_preferences_data",
      ftype := .submodel "MarriagePreferencesCreate",
      optional := true, dflt := some .dNone },
    { name := "wife_data", ftype := .submodel "PersonCreate" },
    { name := "wife_father_data", ftype := .submodel "PersonCreate",
      optional := true, dflt := some .dNone },
    { name := "wife_mother_data", ftype := .submodel "PersonCreate",
      optional := true, dflt := some .dNone },
    { name := "wife_marital_status", ftype := .enumT "MaritalStatus",
      dflt := some (.dEnum "single") },
    { name := "wife_family_data", ftype := .submodel "FamilyBackgroundCreate",
      optional := true, dflt := some .dNone },
    { name := "wife_preferences_data",
      ftype := .submodel "MarriagePreferencesCreate",
      optional := true, dflt := some .dNone },
    strF "purpose" 500,
    strD "special_requests" 1000,
    strF "contact_person" 255,
    strF "contact_phone" 20,
    strD "contact_email" 255,
    { name := "custom_fields", ftype := .dictT, dflt := some .dEmptyDict } ]

/-- Fields of `class MarriageLetterResponse(SQLModel, table=False)`,
models.py lines 322-336. -/
def marriage_letter_response_fields : List FieldSpec :=
  [ { name := "id", ftype := .intT },
    { name := "letter_type", ftype := .enumT "LetterType" },
    { name := "reference_number", ftype := .str },
    { name := "purpose", ftype := .str },
    { name := "contact_person", ftype := .str },
    { name := "contact_phone", ftype := .str },
    { name := "contact_email", ftype := .str },
    { name := "is_printed", ftype := .boolT },
    { name := "print_date", ftype := .datetimeT, optional := true },
    { name := "created_at", ftype := .datetimeT },
    { name := "updated_at", ftype := .datetimeT },
    { name := "husband_name", ftype := .str },
    { name := "wife_name", ftype := .str } ]

/-- Fields of `class LetterPrintRequest(SQLModel, table=False)`,
models.py lines 342-346. -/
def letter_print_request_fields : List FieldSpec :=
  [ { name := "letter_id", ftype := .intT },
    { name := "print_format", ftype := .str, dflt := some (.dStr "pdf"),
      maxLength := some 10 },
    { name := "include_photos", ftype := .boolT, dflt := some (.dBool false) },
    strD "letterhead" 255,
    strD "additional_notes" 500 ]

/-- Fields of `class LetterSummary(SQLModel, table=False)`,
models.py lines 352-358. -/
def letter_summary_fields : List FieldSpec :=
  [ { name := "id", ftype := .intT },
    { name := "letter_type", ftype := .enumT "LetterType" },
    { name := "reference_number", ftype := .str },
    { name := "husband_name", ftype := .str },
    { name := "wife_name", ftype := .str },
    { name := "created_at", ftype := .datetimeT },
    { name := "is_printed", ftype := .boolT } ]

/-- The four persistent table models of models.py, by table name. -/
def tables : List (String × List FieldSpec) :=
  [ ("persons", persons_fields),
    ("marriage_preferences", marriage_preferences_fields),
    ("family_backgrounds", family_backgrounds_fields),
    ("marriage_letters", marriage_letters_fields) ]

/-- Table names that participate in the foreign-key graph: tables that declare
a foreign key together with tables that are the target of one. -/
def fkParticipants : List String :=
  (tables.filter fun t =>
      (t.2.any fun f => f.foreignKey.isSome) ||
      (tables.any fun s => s.2.any fun f => f.foreignKey = some t.1))
    |>.map Prod.fst

/-- Projection of a field descriptor to what an API "Create" shape shares with
its persistent model: name, type annotation, optionality, default and
`max_length` (table-only attributes such as `primary_key`, `foreign_key`,
`unique` and `sa_column` are dropped). -/
def apiShape (f : FieldSpec) : String × FieldType × Bool × Option DefaultVal × Option Nat :=
  (f.name, f.ftype, f.optional, f.dflt, f.maxLength)

/-- The data fields of a persistent model that a "Create" shape mirrors:
everything except `id` and `created_at` (relationship attributes are not
column fields and are absent from the descriptor lists). -/
def createView (fields : List FieldSpec) : List FieldSpec :=
  fields.filter fun f => f.name ≠ "id" && f.name ≠ "created_at"

/-- Length validation as pydantic performs it on a schema's string fields:
given the string value supplied for each field name, every field with a
declared `max_length` must not exceed it. -/
def validateLengths (fields : List FieldSpec) (vals : String → String) : Bool :=
  fields.all fun f =>
    match f.maxLength with
    | some limit => (vals f.name).length ≤ limit
    | none => true

/-- Record-level model of `class MarriageLetter`: one row of the
`marriage_letters` table, with the same declared defaults.  `created_at` and
`updated_at` use `default_factory=datetime.utcnow`, i.e. a fresh timestamp
rather than a constant, so they are constructor arguments here. -/
structure MarriageLetter where
  id : Option Nat := none
  letter_type : LetterType
  reference_number : String
  husband_id : Nat
  husband_father_id : Option Nat := none
  husband_mother_id : Option Nat := none
  husband_marital_status : MaritalStatus := .SINGLE
  husband_family_id : Option Nat := none
  husband_preferences_id : Option Nat := none
  wife_id : Nat
  wife_father_id : Option Nat := none
  wife_mother_id : Option Nat := none
  wife_marital_status : MaritalStatus := .SINGLE
  wife_family_id : Option Nat := none
  wife_preferences_id : Option Nat := none
  purpose : String
  special_requests : String := ""
  contact_person : String
  contact_phone : String
  contact_email : String := ""
  is_printed : Bool := false
  print_date : Option PyDateTime := none
  created_at : PyDateTime
  updated_at : PyDateTime
  custom_fields : List (String × PyVal) := []
  deriving Repr, DecidableEq

/-- Construction of a `MarriageLetter` supplying only the fields that have no
declared default: letter type, reference number, the two mandatory person
references, the required metadata strings, and the factory timestamps. -/
def MarriageLetter.ofRequired (lt : LetterType) (ref : String)
    (hid wid : Nat) (purp cperson cphone : String)
    (t u : PyDateTime) : MarriageLetter :=
  { letter_type := lt, reference_number := ref, husband_id := hid,
    wife_id := wid, purpose := purp, contact_person := cperson,
    contact_phone := cphone, created_at := t, updated_at := u }

/-- Record-level model of `class LetterPrintRequest`, with its declared
defaults. -/
structure LetterPrintRequest where
  letter_id : Nat
  print_format : String := "pdf"
  include_photos : Bool := false
  letterhead : String := ""
  additional_notes : String := ""
  deriving Repr, DecidableEq

/-- Construction of a `LetterPrintRequest` from a letter id alone, every
other field taking its declared default. -/
def LetterPrintRequest.ofLetterId (lid : Nat) : LetterPrintRequest :=
  { letter_id := lid }

/-- Record-level model of `class MarriageLetterResponse`. -/
structure MarriageLetterResponse where
  id : Nat
  letter_type : LetterType
  reference_number : String
  purpose : String
  contact_person : String
  contact_phone : String
  contact_email : String
  is_printed : Bool
  print_date : Option PyDateTime
  created_at : PyDateTime
  updated_at : PyDateTime
  husband_name : String
  wife_name : String
  deriving Repr, DecidableEq

/-- Record-level model of `class LetterSummary`. -/
structure LetterSummary where
  id : Nat
  letter_type : LetterType
  reference_number : String
  husband_name : String
  wife_name : String
  created_at : PyDateTime
  is_printed : Bool
  deriving Repr, DecidableEq

/-- Projection of a full letter response onto its listing summary: every
`LetterSummary` field is filled from the response field of the same name. -/
def LetterSummary.ofResponse (r : MarriageLetterResponse) : LetterSummary :=
  { id := r.id, letter_type := r.letter_type,
    reference_number := r.reference_number, husband_name := r.husband_name,
    wife_name := r.wife_name, created_at := r.created_at,
    is_printed := r.is_printed }

/-- Length validation succeeds exactly when every field that declares a
`max_length` receives a string within that limit. -/
theorem validateLengths_iff (fields : List FieldSpec) (vals : String → String) :
    validateLengths fields vals = true ↔
    ∀ f ∈ fields, ∀ limit, f.maxLength = some limit →
      (vals f.name).length ≤ limit := by
  unfold validateLengths
  rw [List.all_eq_true]
  constructor
  · intro h f hf limit hl
    have hx := h f hf
    rw [hl] at hx
    simpa using hx
  · intro h f hf
    cases hml : f.maxLength with
    | none => simp [hml]
    | some limit => simpa [hml] using h f hf limit hml

/-- C1: the `marriage_letters` table declares exactly the six foreign keys
`husband_id`, `wife_id`, `husband_father_id`, `husband_mother_id`,
`wife_father_id`, `wife_mother_id` to `persons`, exactly the two foreign keys
`husband_family_id`, `wife_family_id` to `family_backgrounds`, and exactly the
two foreign keys `husband_preferences_id`, `wife_preferences_id` to
`marriage_preferences`; these ten are all of its foreign keys, so a letter
references up to six persons, two family backgrounds and two preference
records. -/
theorem claim_C1_marriage_letter_foreign_keys :
    ((marriage_letters_fields.filter fun f =>
        f.foreignKey = some "persons").map FieldSpec.name
      = ["husband_id", "husband_father_id", "husband_mother_id",
         "wife_id", "wife_father_id", "wife_mother_id"])
    ∧ ((marriage_letters_fields.filter fun f =>
        f.foreignKey = some "family_backgrounds").map FieldSpec.name
      = ["husband_family_id", "wife_family_id"])
    ∧ ((marriage_letters_fields.filter fun f =>
        f.foreignKey = some "marriage_preferences").map FieldSpec.name
      = ["husband_preferences_id", "wife_preferences_id"])
    ∧ (marriage_letters_fields.filter fun f =>
        f.foreignKey.isSome).length = 6 + 2 + 2 := by
  refine ⟨by decide, by decide, by decide, by decide⟩

/-- C2 counterexample: the claim that no field of any persistent model carries
a uniqueness constraint is false: `reference_number` of `marriage_letters` is
declared `unique=True` (it is exactly the unique-constrained field of that
table). -/
theorem claim_C2_counterexample :
    (marriage_letters_fields.filter fun f => f.unique).map FieldSpec.name
      = ["reference_number"] := by
  decide

/-- C2 (amended): across all four persistent models, the only field carrying a
uniqueness constraint is `marriage_letters.reference_number`, and the only
primary-key fields are the `id` columns; apart from those and the declared
foreign keys, the models express nothing beyond presence, defaults and string
max lengths. -/
theorem claim_C2_unique_only_reference_number :
    ((tables.all fun t => t.2.all fun f =>
        !f.unique || (t.1 == "marriage_letters" && f.name == "reference_number"))
      = true)
    ∧ ((tables.all fun t => t.2.all fun f =>
        !f.primaryKey || f.name == "id") = true)
    ∧ ((tables.all fun t => t.2.all fun f =>
        f.foreignKey.isNone || t.1 == "marriage_letters") = true) := by
  refine ⟨by decide, by decide, by decide⟩

/-- C3: each non-persistent Create shape mirrors its persistent model: after
dropping `id` and `created_at` (relationship attributes are not columns), the
remaining fields agree in name, type annotation, optionality, default and
`max_length`, in order, for Person, FamilyBackground and MarriagePreferences. -/
theorem claim_C3_create_shapes_mirror_models :
    person_create_fields.map apiShape = (createView persons_fields).map apiShape
    ∧ family_background_create_fields.map apiShape
      = (createView family_backgrounds_fields).map apiShape
    ∧ marriage_preferences_create_fields.map apiShape
      = (createView marriage_preferences_fields).map apiShape := by
  refine ⟨by decide, by decide, by decide⟩

/-- C4 counterexample: the claim that six entity types participate in the
foreign-key graph is false: the source defines four table models, and exactly
four tables either declare or are targeted by a foreign key. -/
theorem claim_C4_counterexample : ¬ (fkParticipants.length = 6) := by
  decide

/-- C4 (amended): exactly four entity types participate in the foreign-key
graph: `persons`, `marriage_preferences` and `family_backgrounds` as targets,
and `marriage_letters` as the table declaring all the foreign keys. -/
theorem claim_C4_four_entity_types :
    fkParticipants = ["persons", "marriage_preferences",
      "family_backgrounds", "marriage_letters"]
    ∧ tables.length = 4 := by
  refine ⟨by decide, by decide⟩

/-- C5: validating a Create schema enforces the declared string length limits:
for any assignment of string values to field names, validation of the length
constraints succeeds if and only if every field with a declared `max_length`
(for example `full_name` with limit 255 in `PersonCreate`) receives a string
of at most that many characters; this holds for all four Create schemas. -/
theorem claim_C5_length_validation (vals : String → String) :
    ((person_create_fields.filter fun f => f.name == "full_name").map
        FieldSpec.maxLength = [some 255])
    ∧ (validateLengths person_create_fields vals = true ↔
        ∀ f ∈ person_create_fields, ∀ limit, f.maxLength = some limit →
          (vals f.name).length ≤ limit)
    ∧ (validateLengths family_background_create_fields vals = true ↔
        ∀ f ∈ family_background_create_fields, ∀ limit, f.maxLength = some limit →
          (vals f.name).length ≤ limit)
    ∧ (validateLengths marriage_preferences_create_fields vals = true ↔
        ∀ f ∈ marriage_preferences_create_fields, ∀ limit, f.maxLength = some limit →
          (vals f.name).length ≤ limit)
    ∧ (validateLengths marriage_letter_create_fields vals = true ↔
        ∀ f ∈ marriage_letter_create_fields, ∀ limit, f.maxLength = some limit →
          (vals f.name).length ≤ limit) := by
  exact ⟨by decide, validateLengths_iff _ vals, validateLengths_iff _ vals,
    validateLengths_iff _ vals, validateLengths_iff _ vals⟩

/-- C6: enum validation accepts exactly the declared members: a string
coerces to a `Religion` value precisely when it is one of the six religion
strings, and to a `LetterType` value precisely when it is one of N1-N5; these
are the annotations of `PersonCreate.religion` and
`MarriageLetterCreate.letter_type`. -/
theorem claim_C6_enum_membership (s : String) :
    ((Religion.ofString? s).isSome ↔
      s ∈ ["islam", "christianity", "hinduism", "buddhism", "judaism", "other"])
    ∧ ((LetterType.ofString? s).isSome ↔ s ∈ ["N1", "N2", "N3", "N4", "N5"])
    ∧ ((person_create_fields.filter fun f => f.name == "religion").map
        FieldSpec.ftype = [.enumT "Religion"])
    ∧ ((marriage_letter_create_fields.filter fun f => f.name == "letter_type").map
        FieldSpec.ftype = [.enumT "LetterType"]) := by
  refine ⟨?_, ?_, by decide, by decide⟩
  · unfold Religion.ofString?
    split_ifs <;> simp_all
  · unfold LetterType.ofString?
    split_ifs <;> simp_all

/-- C7: a print-request shape exists and is constructible from a letter id
alone; the resulting request has `print_format = "pdf"`,
`include_photos = false`, and empty `letterhead` and `additional_notes`. -/
theorem claim_C7_print_request_defaults (lid : Nat) :
    (LetterPrintRequest.ofLetterId lid).print_format = "pdf"
    ∧ (LetterPrintRequest.ofLetterId lid).include_photos = false
    ∧ (LetterPrintRequest.ofLetterId lid).letterhead = ""
    ∧ (LetterPrintRequest.ofLetterId lid).additional_notes = "" := by
  exact ⟨rfl, rfl, rfl, rfl⟩

/-- C8: in the `marriage_letters` schema the mandatory foreign keys are
exactly `husband_id` and `wife_id`, while the four parent references, the two
family references and the two preferences references are optional with
default `None`; a letter built from only its required fields is a valid value
whose eight optional references are all absent. -/
theorem claim_C8_mandatory_and_optional_refs :
    ((marriage_letters_fields.filter fun f =>
        f.foreignKey.isSome && !f.optional).map FieldSpec.name
      = ["husband_id", "wife_id"])
    ∧ ((marriage_letters_fields.filter fun f =>
        f.foreignKey.isSome && f.optional).map FieldSpec.name
      = ["husband_father_id", "husband_mother_id", "husband_family_id",
         "husband_preferences_id", "wife_father_id", "wife_mother_id",
         "wife_family_id", "wife_preferences_id"])
    ∧ ((marriage_letters_fields.filter fun f =>
        f.foreignKey.isSome && f.optional).all fun f =>
          f.dflt == some .dNone) = true
    ∧ ∀ lt ref hid wid purp cperson cphone t u,
        (MarriageLetter.ofRequired lt ref hid wid purp cperson cphone t u).husband_father_id = none
        ∧ (MarriageLetter.ofRequired lt ref hid wid purp cperson cphone t u).husband_mother_id = none
        ∧ (MarriageLetter.ofRequired lt ref hid wid purp cperson cphone t u).wife_father_id = none
        ∧ (MarriageLetter.ofRequired lt ref hid wid purp cperson cphone t u).wife_mother_id = none
        ∧ (MarriageLetter.ofRequired lt ref hid wid purp cperson cphone t u).husband_family_id = none
        ∧ (MarriageLetter.ofRequired lt ref hid wid purp cperson cphone t u).wife_family_id = none
        ∧ (MarriageLetter.ofRequired lt ref hid wid purp cperson cphone t u).husband_preferences_id = none
        ∧ (MarriageLetter.ofRequired lt ref hid wid purp cperson cphone t u).wife_preferences_id = none
        ∧ (MarriageLetter.ofRequired lt ref hid wid purp cperson cphone t u).husband_id = hid
        ∧ (MarriageLetter.ofRequired lt ref hid wid purp cperson cphone t u).wife_id = wid := by
  refine ⟨by decide, by decide, by decide, ?_⟩
  intro lt ref hid wid purp cperson cphone t u
  exact ⟨rfl, rfl, rfl, rfl, rfl, rfl, rfl, rfl, rfl, rfl⟩

/-- C9: a marriage letter constructed with only its required fields has
`is_printed = false`, `print_date = None`, both marital statuses `SINGLE`,
and an empty `custom_fields` dictionary. -/
theorem claim_C9_new_letter_defaults
    (lt : LetterType) (ref : String) (hid wid : Nat)
    (purp cperson cphone : String) (t u : PyDateTime) :
    (MarriageLetter.ofRequired lt ref hid wid purp cperson cphone t u).is_printed = false
    ∧ (MarriageLetter.ofRequired lt ref hid wid purp cperson cphone t u).print_date = none
    ∧ (MarriageLetter.ofRequired lt ref hid wid purp cperson cphone t u).husband_marital_status = .SINGLE
    ∧ (MarriageLetter.ofRequired lt ref hid wid purp cperson cphone t u).wife_marital_status = .SINGLE
    ∧ (MarriageLetter.ofRequired lt ref hid wid purp cperson cphone t u).custom_fields = [] := by
  exact ⟨rfl, rfl, rfl, rfl, rfl⟩

/-- C10: `LetterSummary` is a projection of `MarriageLetterResponse`: each of
its seven declared fields also occurs, with the same name and type, among the
response's fields, and every response value projects to a summary agreeing
with it on all seven shared fields. -/
theorem claim_C10_summary_projection :
    (letter_summary_fields.all fun f =>
      marriage_letter_response_fields.contains f) = true
    ∧ letter_summary_fields.length = 7
    ∧ ∀ r : MarriageLetterResponse,
        (LetterSummary.ofResponse r).id = r.id
        ∧ (LetterSummary.ofResponse r).letter_type = r.letter_type
        ∧ (LetterSummary.ofResponse r).reference_number = r.reference_number
        ∧ (LetterSummary.ofResponse r).husband_name = r.husband_name
        ∧ (LetterSummary.ofResponse r).wife_name = r.wife_name
        ∧ (LetterSummary.ofResponse r).created_at = r.created_at
        ∧ (LetterSummary.ofResponse r).is_printed = r.is_printed := by
  refine ⟨by decide, by decide, ?_⟩
  intro r
  exact ⟨rfl, rfl, rfl, rfl, rfl, rfl, rfl⟩
